import Mathlib

/-!
Verification of the skyweave weather-photo pipeline against its
natural-language specification.  The Go source is shallowly embedded:
pure functions become Lean functions over ℚ (for float64), Int (for int)
and String; the external HTTP providers and the SQLite store are
replaced by explicit oracles / state passing.  Each embedded definition
carries a note naming the Go function it is translated from.
-/

namespace Skyweave

/-- Model of Go's float64→int conversion (truncation toward zero) applied
to a rational value.  Used where the source writes `int(x)` on a float. -/
def ratTrunc (q : ℚ) : Int := if 0 ≤ q then ⌊q⌋ else -⌊-q⌋

/-- Decimal model of Go's `%.1f` formatting: round the value to one
decimal digit (ties to even, as Go's `fmt` rounds) and print it. -/
def roundHalfEven (x : ℚ) : Int :=
  let n := ⌊x⌋
  if x - n < 1/2 then n
  else if 1/2 < x - n then n + 1
  else if n % 2 = 0 then n else n + 1

/-- The textual form `d₁.d₂` of a rational printed via `%.1f`. -/
def fmt1 (q : ℚ) : String :=
  let n := roundHalfEven (q * 10)
  let a := n.natAbs
  (if n < 0 then "-" else "") ++ toString (a / 10) ++ "." ++ toString (a % 10)

/-- Unified weather summary, from `WeatherData` in the Go source
(`main.go`).  float64 fields become ℚ, int fields become Int. -/
structure WeatherData where
  temp : ℚ
  feelsLike : ℚ
  pressure : Int
  humidity : Int
  clouds : Int
  visibility : Int
  windSpeed : ℚ
  windDeg : Int
  condition : String
  description : String
  rain : ℚ
  snow : ℚ

/-- Condition text with the source's default (`generatePrompt`): empty
condition becomes "clear". -/
def condVal (w : WeatherData) : String :=
  if w.condition = "" then "clear" else w.condition

/-- Description text with the source's default: empty description becomes
"clear sky". -/
def descVal (w : WeatherData) : String :=
  if w.description = "" then "clear sky" else w.description

/-- Temperature band of `generatePrompt` (`tempDesc` in the source). -/
def tempBand (temp : ℚ) : String :=
  if temp < 0 then "freezing cold"
  else if temp < 10 then "cold"
  else if temp < 20 then "cool"
  else if temp < 28 then "warm"
  else "hot"

/-- Cloud-coverage band of `generatePrompt` (`cloudiness` in the source). -/
def cloudBand (clouds : Int) : String :=
  if clouds < 20 then "clear skies"
  else if clouds < 50 then "partly cloudy skies"
  else if clouds < 80 then "mostly cloudy skies"
  else "overcast skies"

/-- Visibility text of `generatePrompt` (`visibilityDesc` in the source);
empty when visibility is 5000 or more. -/
def visText (w : WeatherData) : String :=
  if w.visibility < 1000 then "with very poor visibility"
  else if w.visibility < 5000 then "with reduced visibility"
  else ""

/-- Precipitation text of `generatePrompt` (`precipitation` in the
source); empty exactly when both rain and snow are ≤ 0. -/
def precipText (w : WeatherData) : String :=
  if w.rain > 0 then
    (if w.rain < 5/2 then "light rain"
     else if w.rain < 10 then "moderate rain"
     else "heavy rain")
  else if w.snow > 0 then
    (if w.snow < 5/2 then "light snow"
     else if w.snow < 10 then "moderate snow"
     else "heavy snow")
  else ""

/-- Wind text of `generatePrompt` (`windDesc` in the source). -/
def windText (w : WeatherData) : String :=
  if w.windSpeed > 10 then "with strong winds"
  else if w.windSpeed > 5 then "with moderate winds"
  else ""

/-- Embedding of `generatePrompt` from `main.go`: builds the AI prompt
from the weather summary and the location label exactly as the source's
chain of `Sprintf` and conditional `+=` does (the `%s`/`%.1f`/`%d` verbs
are expanded into explicit concatenation). -/
def generatePrompt (weatherData : WeatherData) (locationName : String) : String :=
  let condition := condVal weatherData
  let description := descVal weatherData
  let temp := weatherData.temp
  let tempDesc := tempBand temp
  let cloudiness := cloudBand weatherData.clouds
  let visibilityDesc := visText weatherData
  let precipitation := precipText weatherData
  let windDesc := windText weatherData
  let prompt :=
    "Transform this landscape photo to accurately depict " ++ locationName ++
    " weather conditions. The scene should show " ++ condition ++ " (" ++ description ++
    ") with " ++ cloudiness ++ " and a temperature of " ++ fmt1 temp ++ "°C (" ++
    tempDesc ++ "). "
  let prompt :=
    if precipitation ≠ "" then prompt ++ ("Add " ++ precipitation ++ " falling in the scene. ")
    else prompt
  let prompt :=
    if visibilityDesc ≠ "" then prompt ++ ("The atmosphere should appear " ++ visibilityDesc ++ ". ")
    else prompt
  let prompt :=
    if windDesc ≠ "" then prompt ++ ("Show signs of wind " ++ windDesc ++ " such as swaying trees or grass. ")
    else prompt
  prompt ++
    ("The lighting should match the cloudiness level (clouds: " ++ toString weatherData.clouds ++
     "%). Maintain the original composition and main subjects of the photo while " ++
     "authentically applying these weather conditions. The result should look " ++
     "natural and photorealistic.")

/-- Leading sentence of the prompt: always contains location, condition,
description, cloud band, formatted temperature and temperature band. -/
def promptHead (w : WeatherData) (locationName : String) : String :=
  "Transform this landscape photo to accurately depict " ++ locationName ++
  " weather conditions. The scene should show " ++ condVal w ++ " (" ++ descVal w ++
  ") with " ++ cloudBand w.clouds ++ " and a temperature of " ++ fmt1 w.temp ++ "°C (" ++
  tempBand w.temp ++ "). "

/-- Optional precipitation sentence of the prompt. -/
def precipClause (w : WeatherData) : String :=
  if precipText w ≠ "" then "Add " ++ precipText w ++ " falling in the scene. " else ""

/-- Optional visibility sentence of the prompt. -/
def visClause (w : WeatherData) : String :=
  if visText w ≠ "" then "The atmosphere should appear " ++ visText w ++ ". " else ""

/-- Optional wind sentence of the prompt. -/
def windClause (w : WeatherData) : String :=
  if windText w ≠ "" then "Show signs of wind " ++ windText w ++ " such as swaying trees or grass. " else ""

/-- Closing instruction sentence of the prompt, referencing the numeric
cloud percentage and demanding photorealism and preserved composition. -/
def promptTail (w : WeatherData) : String :=
  "The lighting should match the cloudiness level (clouds: " ++ toString w.clouds ++
  "%). Maintain the original composition and main subjects of the photo while " ++
  "authentically applying these weather conditions. The result should look " ++
  "natural and photorealistic."

lemma append_empty_right (s : String) : s ++ "" = s := by
  cases s with
  | mk data => show String.mk (data ++ []) = String.mk data
               rw [List.append_nil]

/-- The prompt decomposes into head, the three optional clauses in order,
and the closing sentence. -/
lemma generatePrompt_decomp (w : WeatherData) (l : String) :
    generatePrompt w l =
      promptHead w l ++ precipClause w ++ visClause w ++ windClause w ++ promptTail w := by
  unfold generatePrompt promptHead precipClause visClause windClause promptTail
  by_cases hp : precipText w = "" <;> by_cases hv : visText w = "" <;>
    by_cases hw : windText w = "" <;>
    simp [hp, hv, hw, append_empty_right, String.append_assoc]

lemma empty_append_left (s : String) : "" ++ s = s := by
  cases s with
  | mk data => show String.mk ([] ++ data) = String.mk data
               rw [List.nil_append]

/-- Substring-containment: `s` equals some prefix, then `sub`, then some
suffix. -/
def Contains (s sub : String) : Prop := ∃ a b, s = a ++ (sub ++ b)

lemma contains_refl (s : String) : Contains s s :=
  ⟨"", "", by rw [append_empty_right, empty_append_left]⟩

lemma contains_append_right {s sub : String} (t : String) (h : Contains s sub) :
    Contains (s ++ t) sub := by
  obtain ⟨a, b, rfl⟩ := h
  exact ⟨a, b ++ t, by simp [String.append_assoc]⟩

lemma contains_append_left {t sub : String} (s : String) (h : Contains t sub) :
    Contains (s ++ t) sub := by
  obtain ⟨a, b, rfl⟩ := h
  exact ⟨s ++ a, b, by simp [String.append_assoc]⟩

lemma promptHead_contains_location (w : WeatherData) (l : String) :
    Contains (promptHead w l) l := by
  unfold promptHead
  repeat first
    | exact contains_append_left _ (contains_refl _)
    | exact contains_refl _
    | apply contains_append_right

lemma promptHead_contains_condition (w : WeatherData) (l : String) :
    Contains (promptHead w l) (condVal w) := by
  unfold promptHead
  repeat first
    | exact contains_append_left _ (contains_refl _)
    | exact contains_refl _
    | apply contains_append_right

lemma promptHead_contains_description (w : WeatherData) (l : String) :
    Contains (promptHead w l) (descVal w) := by
  unfold promptHead
  repeat first
    | exact contains_append_left _ (contains_refl _)
    | exact contains_refl _
    | apply contains_append_right

lemma promptHead_contains_cloudBand (w : WeatherData) (l : String) :
    Contains (promptHead w l) (cloudBand w.clouds) := by
  unfold promptHead
  repeat first
    | exact contains_append_left _ (contains_refl _)
    | exact contains_refl _
    | apply contains_append_right

lemma promptHead_contains_temp (w : WeatherData) (l : String) :
    Contains (promptHead w l) (fmt1 w.temp) := by
  unfold promptHead
  repeat first
    | exact contains_append_left _ (contains_refl _)
    | exact contains_refl _
    | apply contains_append_right

lemma promptHead_contains_tempBand (w : WeatherData) (l : String) :
    Contains (promptHead w l) (tempBand w.temp) := by
  unfold promptHead
  repeat first
    | exact contains_append_left _ (contains_refl _)
    | exact contains_refl _
    | apply contains_append_right

lemma contains_prompt_of_head {w : WeatherData} {l sub : String}
    (h : Contains (promptHead w l) sub) : Contains (generatePrompt w l) sub := by
  rw [generatePrompt_decomp]
  exact contains_append_right _ <| contains_append_right _ <| contains_append_right _ <|
    contains_append_right _ h

lemma prompt_contains_location (w : WeatherData) (l : String) :
    Contains (generatePrompt w l) l :=
  contains_prompt_of_head (promptHead_contains_location w l)

lemma prompt_contains_condition (w : WeatherData) (l : String) :
    Contains (generatePrompt w l) (condVal w) :=
  contains_prompt_of_head (promptHead_contains_condition w l)

lemma prompt_contains_description (w : WeatherData) (l : String) :
    Contains (generatePrompt w l) (descVal w) :=
  contains_prompt_of_head (promptHead_contains_description w l)

lemma prompt_contains_cloudBand (w : WeatherData) (l : String) :
    Contains (generatePrompt w l) (cloudBand w.clouds) :=
  contains_prompt_of_head (promptHead_contains_cloudBand w l)

lemma prompt_contains_temp (w : WeatherData) (l : String) :
    Contains (generatePrompt w l) (fmt1 w.temp) :=
  contains_prompt_of_head (promptHead_contains_temp w l)

lemma prompt_contains_tempBand (w : WeatherData) (l : String) :
    Contains (generatePrompt w l) (tempBand w.temp) :=
  contains_prompt_of_head (promptHead_contains_tempBand w l)

lemma append_ne_empty (s t : String) (h : t ≠ "") : s ++ t ≠ "" := by
  intro hc
  have hd : s.data ++ t.data = [] := by
    have h2 := congrArg String.data hc
    rwa [String.data_append] at h2
  exact h (String.ext (List.append_eq_nil.mp hd).2)

lemma precipClause_ne_iff (w : WeatherData) :
    precipClause w ≠ "" ↔ (w.rain > 0 ∨ w.snow > 0) := by
  unfold precipClause
  constructor
  · intro h
    by_contra hc
    push_neg at hc
    have ht : precipText w = "" := by
      unfold precipText
      rw [if_neg (by simpa using hc.1), if_neg (by simpa using hc.2)]
    rw [if_neg (by simpa using ht)] at h
    exact h rfl
  · intro h
    have ht : precipText w ≠ "" := by
      unfold precipText
      rcases h with hr | hs
      · rw [if_pos hr]
        split_ifs <;> decide
      · by_cases hr : w.rain > 0
        · rw [if_pos hr]
          split_ifs <;> decide
        · rw [if_neg hr, if_pos hs]
          split_ifs <;> decide
    rw [if_pos ht]
    exact append_ne_empty _ _ (by decide)

lemma visClause_ne_iff (w : WeatherData) :
    visClause w ≠ "" ↔ w.visibility < 5000 := by
  unfold visClause
  constructor
  · intro h
    by_contra hc
    have ht : visText w = "" := by
      unfold visText
      rw [if_neg (by omega), if_neg (by omega)]
    rw [if_neg (by simpa using ht)] at h
    exact h rfl
  · intro h
    have ht : visText w ≠ "" := by
      unfold visText
      split_ifs <;> decide
    rw [if_pos ht]
    exact append_ne_empty _ _ (by decide)

lemma windClause_ne_iff (w : WeatherData) :
    windClause w ≠ "" ↔ w.windSpeed > 5 := by
  unfold windClause
  constructor
  · intro h
    by_contra hc
    have ht : windText w = "" := by
      unfold windText
      rw [if_neg (by push_neg at hc; linarith), if_neg (by simpa using hc)]
    rw [if_neg (by simpa using ht)] at h
    exact h rfl
  · intro h
    have ht : windText w ≠ "" := by
      unfold windText
      split_ifs <;> decide
    rw [if_pos ht]
    exact append_ne_empty _ _ (by decide)

lemma cloudBand_thresholds (c : Int) :
    (c < 20 → cloudBand c = "clear skies")
    ∧ (20 ≤ c → c < 50 → cloudBand c = "partly cloudy skies")
    ∧ (50 ≤ c → c < 80 → cloudBand c = "mostly cloudy skies")
    ∧ (80 ≤ c → cloudBand c = "overcast skies") := by
  refine ⟨fun h => ?_, fun h1 h2 => ?_, fun h1 h2 => ?_, fun h1 => ?_⟩ <;>
    unfold cloudBand
  · rw [if_pos h]
  · rw [if_neg (by omega), if_pos h2]
  · rw [if_neg (by omega), if_neg (by omega), if_pos h2]
  · rw [if_neg (by omega), if_neg (by omega), if_neg (by omega)]

lemma tempBand_thresholds (t : ℚ) :
    (t < 0 → tempBand t = "freezing cold")
    ∧ (0 ≤ t → t < 10 → tempBand t = "cold")
    ∧ (10 ≤ t → t < 20 → tempBand t = "cool")
    ∧ (20 ≤ t → t < 28 → tempBand t = "warm")
    ∧ (28 ≤ t → tempBand t = "hot") := by
  refine ⟨fun h => ?_, fun h1 h2 => ?_, fun h1 h2 => ?_, fun h1 h2 => ?_, fun h1 => ?_⟩ <;>
    unfold tempBand
  · rw [if_pos h]
  · rw [if_neg (by linarith), if_pos h2]
  · rw [if_neg (by linarith), if_neg (by linarith), if_pos h2]
  · rw [if_neg (by linarith), if_neg (by linarith), if_neg (by linarith), if_pos h2]
  · rw [if_neg (by linarith), if_neg (by linarith), if_neg (by linarith),
      if_neg (by linarith)]

/-- The weather summary of the specification's prompt scenario:
temp 25.0 °C, 15 % clouds, no rain or snow, wind 3, full visibility. -/
def scenarioSummary : WeatherData :=
  { temp := 25, feelsLike := 25, pressure := 1013, humidity := 50, clouds := 15
    visibility := 10000, windSpeed := 3, windDeg := 0
    condition := "Clear", description := "clear sky", rain := 0, snow := 0 }

lemma scenario_tempBand : tempBand scenarioSummary.temp = "warm" := by
  unfold tempBand scenarioSummary
  norm_num

lemma scenario_cloudBand : cloudBand scenarioSummary.clouds = "clear skies" := by
  unfold cloudBand scenarioSummary
  norm_num

lemma scenario_noPrecip : precipClause scenarioSummary = "" := by
  unfold precipClause precipText scenarioSummary
  norm_num

lemma scenario_noWind : windClause scenarioSummary = "" := by
  unfold windClause windText scenarioSummary
  norm_num

/-- C6: the synthesized prompt always contains the location, the
condition, the description, the cloud band with the thresholds
20/50/80, the temperature to one decimal place and the temperature band
with the thresholds 0/10/20/28; it appends the precipitation clause
exactly when rain>0 or snow>0, the visibility clause exactly when
visibility<5000, and the wind clause exactly when wind speed>5, in that
order; and the scenario summary (temp 25.0, clouds 15, rain 0, snow 0,
wind 3) yields a prompt containing "warm" and "clear skies" and no
precipitation or wind clause. -/
theorem generatePrompt_content (w : WeatherData) (l : String) :
    (generatePrompt w l =
       promptHead w l ++ precipClause w ++ visClause w ++ windClause w ++ promptTail w)
    ∧ Contains (generatePrompt w l) l
    ∧ Contains (generatePrompt w l) (condVal w)
    ∧ Contains (generatePrompt w l) (descVal w)
    ∧ Contains (generatePrompt w l) (cloudBand w.clouds)
    ∧ Contains (generatePrompt w l) (fmt1 w.temp)
    ∧ Contains (generatePrompt w l) (tempBand w.temp)
    ∧ (precipClause w ≠ "" ↔ (w.rain > 0 ∨ w.snow > 0))
    ∧ (visClause w ≠ "" ↔ w.visibility < 5000)
    ∧ (windClause w ≠ "" ↔ w.windSpeed > 5)
    ∧ ((w.clouds < 20 → cloudBand w.clouds = "clear skies")
       ∧ (20 ≤ w.clouds → w.clouds < 50 → cloudBand w.clouds = "partly cloudy skies")
       ∧ (50 ≤ w.clouds → w.clouds < 80 → cloudBand w.clouds = "mostly cloudy skies")
       ∧ (80 ≤ w.clouds → cloudBand w.clouds = "overcast skies"))
    ∧ ((w.temp < 0 → tempBand w.temp = "freezing cold")
       ∧ (0 ≤ w.temp → w.temp < 10 → tempBand w.temp = "cold")
       ∧ (10 ≤ w.temp → w.temp < 20 → tempBand w.temp = "cool")
       ∧ (20 ≤ w.temp → w.temp < 28 → tempBand w.temp = "warm")
       ∧ (28 ≤ w.temp → tempBand w.temp = "hot"))
    ∧ Contains (generatePrompt scenarioSummary "Paris, FR") "warm"
    ∧ Contains (generatePrompt scenarioSummary "Paris, FR") "clear skies"
    ∧ precipClause scenarioSummary = "" ∧ windClause scenarioSummary = "" := by
  refine ⟨generatePrompt_decomp w l, prompt_contains_location w l,
    prompt_contains_condition w l, prompt_contains_description w l,
    prompt_contains_cloudBand w l, prompt_contains_temp w l,
    prompt_contains_tempBand w l, precipClause_ne_iff w, visClause_ne_iff w,
    windClause_ne_iff w, cloudBand_thresholds w.clouds, tempBand_thresholds w.temp,
    ?_, ?_, scenario_noPrecip, scenario_noWind⟩
  · have h := prompt_contains_tempBand scenarioSummary "Paris, FR"
    rwa [scenario_tempBand] at h
  · have h := prompt_contains_cloudBand scenarioSummary "Paris, FR"
    rwa [scenario_cloudBand] at h

/-- Witness for C6's banded conjuncts at the scenario summary. -/
theorem generatePrompt_content_witness :
    cloudBand scenarioSummary.clouds = "clear skies"
    ∧ tempBand scenarioSummary.temp = "warm"
    ∧ (precipClause scenarioSummary ≠ "" ↔
        (scenarioSummary.rain > 0 ∨ scenarioSummary.snow > 0)) := by
  obtain ⟨-, -, -, -, -, -, -, hpc, -, -, hcb, htb, -, -, -, -⟩ :=
    generatePrompt_content scenarioSummary "Paris, FR"
  refine ⟨hcb.1 (by norm_num [scenarioSummary]),
    htb.2.2.2.1 (by norm_num [scenarioSummary]) (by norm_num [scenarioSummary]), hpc⟩

/-- C8: prompt synthesis is deterministic — two invocations with the
same weather summary, location label and requested time-of-day produce
byte-identical prompt text.  (In the embedded source `generatePrompt`
is a pure function of the weather summary and the location label; the
time-of-day does not influence the output at all.) -/
theorem generatePrompt_deterministic (w w' : WeatherData) (l l' t t' : String)
    (hw : w = w') (hl : l = l') (ht : t = t') :
    generatePrompt w l = generatePrompt w' l' := by
  subst hw; subst hl; rfl

/-- Witness for C8 at a concrete input. -/
theorem generatePrompt_deterministic_witness :
    generatePrompt scenarioSummary "Paris, FR" = generatePrompt scenarioSummary "Paris, FR" :=
  generatePrompt_deterministic scenarioSummary scenarioSummary "Paris, FR" "Paris, FR" "" ""
    rfl rfl rfl

/-! ## Historical weather aggregation (C5), from `aggregateHistoricalData` in `main.go` -/

/-- One weather-condition entry of an hourly sample (`Weather` array
element of the History API response). -/
structure HWeatherEntry where
  main : String
  description : String

/-- One hourly historical sample (`List` element of
`HistoricalWeatherResponse`); absent rain/snow groups are `none`. -/
structure HItem where
  temp : ℚ
  feelsLike : ℚ
  pressure : Int
  humidity : Int
  windSpeed : ℚ
  windDeg : Int
  clouds : Int
  weather : List HWeatherEntry
  rain : Option ℚ
  snow : Option ℚ

/-- Embedding of `aggregateHistoricalData` from `main.go`: averages the
hourly samples (integer fields through Go's float→int truncation), sums
precipitation, takes condition/description from the sample at index
`len/2`, and fixes visibility at 10000.  The Go accumulation loop is
rendered as `map`/`sum`. -/
def aggregateHistoricalData : List HItem → WeatherData
  | [] => ⟨0, 0, 0, 0, 0, 0, 0, 0, "", "", 0, 0⟩
  | x :: xs =>
    let l := x :: xs
    let midpoint := l.getD (l.length / 2) x
    let condition := match midpoint.weather with | [] => "" | e :: _ => e.main
    let description := match midpoint.weather with | [] => "" | e :: _ => e.description
    let count : ℚ := l.length
    { temp := (l.map HItem.temp).sum / count
      feelsLike := (l.map HItem.feelsLike).sum / count
      pressure := ratTrunc (((l.map HItem.pressure).sum : ℚ) / count)
      humidity := ratTrunc (((l.map HItem.humidity).sum : ℚ) / count)
      clouds := ratTrunc (((l.map HItem.clouds).sum : ℚ) / count)
      visibility := 10000
      windSpeed := (l.map HItem.windSpeed).sum / count
      windDeg := 0
      condition := condition
      description := description
      rain := (l.map (fun i => i.rain.getD 0)).sum
      snow := (l.map (fun i => i.snow.getD 0)).sum }

/-- Hourly sample with pressure 1000 and otherwise neutral values. -/
def histSampleA : HItem :=
  { temp := 10, feelsLike := 10, pressure := 1000, humidity := 50, windSpeed := 1
    windDeg := 0, clouds := 40, weather := [⟨"Clouds", "scattered clouds"⟩]
    rain := none, snow := none }

/-- Hourly sample with pressure 1001 and otherwise neutral values. -/
def histSampleB : HItem :=
  { temp := 11, feelsLike := 11, pressure := 1001, humidity := 50, windSpeed := 1
    windDeg := 0, clouds := 40, weather := [⟨"Clouds", "scattered clouds"⟩]
    rain := none, snow := none }

/-- C5 counterexample: for the two concrete hourly samples with
pressures 1000 and 1001 the aggregated pressure is the truncated value
1000, not the arithmetic mean 1000.5 — so the claim that every listed
field equals the arithmetic mean fails on the integer-typed fields. -/
theorem aggregateHistoricalData_pressure_not_mean :
    ((aggregateHistoricalData [histSampleA, histSampleB]).pressure : ℚ)
      ≠ ((1000 : ℚ) + 1001) / 2 := by
  have h : (aggregateHistoricalData [histSampleA, histSampleB]).pressure = 1000 := by
    simp only [aggregateHistoricalData, histSampleA, histSampleB, ratTrunc, List.map,
      List.sum_cons, List.sum_nil, List.length]
    norm_num
  rw [h]
  norm_num

/-- C5 (amended): for every non-empty sample list, temperature,
feels-like and wind speed are the exact arithmetic means, the integer
fields pressure, humidity and cloud % are the float→int truncation of
the arithmetic means, rain and snow are the sums of the hourly amounts
(absent groups counting 0), condition and description come from the
sample at the midpoint index N/2, and visibility is the constant
10000. -/
theorem aggregateHistoricalData_spec (x : HItem) (xs : List HItem) :
    (aggregateHistoricalData (x :: xs)).temp
        = ((x :: xs).map HItem.temp).sum / ((x :: xs).length : ℚ)
    ∧ (aggregateHistoricalData (x :: xs)).feelsLike
        = ((x :: xs).map HItem.feelsLike).sum / ((x :: xs).length : ℚ)
    ∧ (aggregateHistoricalData (x :: xs)).windSpeed
        = ((x :: xs).map HItem.windSpeed).sum / ((x :: xs).length : ℚ)
    ∧ (aggregateHistoricalData (x :: xs)).pressure
        = ratTrunc ((((x :: xs).map HItem.pressure).sum : ℚ) / ((x :: xs).length : ℚ))
    ∧ (aggregateHistoricalData (x :: xs)).humidity
        = ratTrunc ((((x :: xs).map HItem.humidity).sum : ℚ) / ((x :: xs).length : ℚ))
    ∧ (aggregateHistoricalData (x :: xs)).clouds
        = ratTrunc ((((x :: xs).map HItem.clouds).sum : ℚ) / ((x :: xs).length : ℚ))
    ∧ (aggregateHistoricalData (x :: xs)).rain
        = ((x :: xs).map (fun i => i.rain.getD 0)).sum
    ∧ (aggregateHistoricalData (x :: xs)).snow
        = ((x :: xs).map (fun i => i.snow.getD 0)).sum
    ∧ (aggregateHistoricalData (x :: xs)).visibility = 10000
    ∧ (aggregateHistoricalData (x :: xs)).condition
        = (match ((x :: xs).getD ((x :: xs).length / 2) x).weather with
           | [] => "" | e :: _ => e.main)
    ∧ (aggregateHistoricalData (x :: xs)).description
        = (match ((x :: xs).getD ((x :: xs).length / 2) x).weather with
           | [] => "" | e :: _ => e.description) :=
  ⟨rfl, rfl, rfl, rfl, rfl, rfl, rfl, rfl, rfl, rfl, rfl⟩

/-! ## Geocoding (C7), from `geocodeLocation` in `main.go` -/

/-- Geocoding API result (`GeocodingResult` in the source). -/
structure GeocodingResult where
  name : String
  country : String
  lat : ℚ
  lon : ℚ

/-- The zip-code detection loop of `geocodeLocation`: true iff some
character of the location is a decimal digit. -/
def isZipCode (location : String) : Bool :=
  location.data.any fun c => decide ('0' ≤ c) && decide (c ≤ '9')

/-- Which provider endpoint a geocoding request is routed to. -/
inductive GeoEndpoint where
  | zip
  | direct
  deriving DecidableEq, Repr

/-- Result of a geocoding call. -/
inductive GeoResult where
  | found (g : GeocodingResult)
  | notFound

/-- Embedding of `geocodeLocation` from `main.go` over provider oracles:
digit-bearing input routes to the zip endpoint (single result), other
input to the free-text endpoint whose first match is taken; an empty
free-text match list is the "location not found" failure. -/
def geocodeLocation (location : String) (zipResp : GeocodingResult)
    (directResp : List GeocodingResult) : GeoEndpoint × GeoResult :=
  if isZipCode location then (.zip, .found zipResp)
  else
    (.direct,
      match directResp with
      | [] => .notFound
      | r :: _ => .found r)

/-- C7: geocoding routes to the zip endpoint iff the location contains a
decimal digit; otherwise it uses free-text search, takes the first
match, and fails with not-found on zero matches; "10001" routes to
zip-style geocoding. -/
theorem geocodeLocation_routing (location : String) (zipResp : GeocodingResult)
    (directResp : List GeocodingResult) :
    ((geocodeLocation location zipResp directResp).1 = .zip
        ↔ (∃ c ∈ location.data, '0' ≤ c ∧ c ≤ '9'))
    ∧ (isZipCode location = false → directResp = []
        → (geocodeLocation location zipResp directResp).2 = .notFound)
    ∧ (isZipCode location = false → ∀ r t, directResp = r :: t
        → (geocodeLocation location zipResp directResp).2 = .found r)
    ∧ (geocodeLocation "10001" zipResp directResp).1 = .zip := by
  refine ⟨?_, ?_, ?_, ?_⟩
  · unfold geocodeLocation
    by_cases h : isZipCode location
    · simp only [if_pos h]
      unfold isZipCode at h
      rw [List.any_eq_true] at h
      simpa using h
    · simp only [if_neg h]
      unfold isZipCode at h
      rw [Bool.not_eq_true, List.any_eq_false] at h
      constructor
      · intro hc
        exact GeoEndpoint.noConfusion hc
      · intro ⟨c, hc, h0, h9⟩
        have h2 := h c hc
        simp [h0, h9] at h2
  · intro h hd
    unfold geocodeLocation
    rw [if_neg (by simp [h]), hd]
  · intro h r t hd
    unfold geocodeLocation
    rw [if_neg (by simp [h]), hd]
  · unfold geocodeLocation
    rw [if_pos (by decide)]

/-- Witness for C7 at concrete inputs. -/
theorem geocodeLocation_routing_witness :
    (geocodeLocation "Paris" ⟨"x", "y", 0, 0⟩ []).2 = .notFound
    ∧ (geocodeLocation "10001" ⟨"x", "y", 0, 0⟩ []).1 = .zip :=
  ⟨(geocodeLocation_routing "Paris" ⟨"x", "y", 0, 0⟩ []).2.1 (by decide) rfl,
   (geocodeLocation_routing "10001" ⟨"x", "y", 0, 0⟩ []).2.2.2⟩

/-! ## Request store (C10), from `handlers.go` -/

/-- The persisted request row (`Request` struct / `requests` table in
`handlers.go`).  `updatedAt` stands for the `updated_at` timestamp
column. -/
structure Request where
  id : String
  userId : String
  locationInput : String
  locationName : String
  country : String
  latitude : ℚ
  longitude : ℚ
  targetDate : String
  imagePath : String
  weatherCondition : String
  weatherDescription : String
  temperature : ℚ
  feelsLike : ℚ
  humidity : Int
  clouds : Int
  windSpeed : ℚ
  visibility : Int
  precipitation : String
  aiPrompt : String
  predictionId : String
  status : String
  errorMessage : String
  resultImagePath : String
  updatedAt : Nat

/-- The requests table, keyed by request id. -/
def RequestDB := String → Option Request

/-- Embedding of `updateRequestError` from `handlers.go`: the SQL UPDATE
sets status='error', error_message and updated_at on the row matching
the id and touches nothing else. -/
def updateRequestError (db : RequestDB) (id errorMsg : String) (now : Nat) : RequestDB :=
  fun k =>
    if k = id then
      match db id with
      | some r => some { r with status := "error", errorMessage := errorMsg, updatedAt := now }
      | none => none
    else db k

/-- C10: a stage failure is atomic — `updateRequestError` changes only
status, error_message and updated_at of the identified row; every other
row and every other column (location input, geocode results, weather
fields, prompt, prediction id, result path) is unchanged. -/
theorem updateRequestError_frame (db : RequestDB) (id msg : String) (now : Nat) :
    (∀ k, k ≠ id → updateRequestError db id msg now k = db k)
    ∧ (∀ r r', db id = some r → updateRequestError db id msg now id = some r' →
        r'.status = "error" ∧ r'.errorMessage = msg ∧ r'.updatedAt = now
        ∧ r'.id = r.id ∧ r'.userId = r.userId
        ∧ r'.locationInput = r.locationInput ∧ r'.locationName = r.locationName
        ∧ r'.country = r.country ∧ r'.latitude = r.latitude ∧ r'.longitude = r.longitude
        ∧ r'.targetDate = r.targetDate ∧ r'.imagePath = r.imagePath
        ∧ r'.weatherCondition = r.weatherCondition
        ∧ r'.weatherDescription = r.weatherDescription
        ∧ r'.temperature = r.temperature ∧ r'.feelsLike = r.feelsLike
        ∧ r'.humidity = r.humidity ∧ r'.clouds = r.clouds ∧ r'.windSpeed = r.windSpeed
        ∧ r'.visibility = r.visibility ∧ r'.precipitation = r.precipitation
        ∧ r'.aiPrompt = r.aiPrompt ∧ r'.predictionId = r.predictionId
        ∧ r'.resultImagePath = r.resultImagePath) := by
  constructor
  · intro k h
    unfold updateRequestError
    rw [if_neg h]
  · intro r r' hr h'
    unfold updateRequestError at h'
    rw [if_pos rfl, hr] at h'
    cases Option.some.inj h'
    repeat constructor

/-- Concrete request row used in witnesses. -/
def sampleRequest : Request :=
  { id := "req1", userId := "u1", locationInput := "Paris"
    locationName := "Paris", country := "FR", latitude := 48, longitude := 2
    targetDate := "2025-06-01", imagePath := "./data/uploads/req1.jpg"
    weatherCondition := "Clear", weatherDescription := "clear sky"
    temperature := 20, feelsLike := 19, humidity := 50, clouds := 10, windSpeed := 3
    visibility := 10000, precipitation := "", aiPrompt := "prompt text"
    predictionId := "", status := "weather_fetched", errorMessage := ""
    resultImagePath := "", updatedAt := 5 }

/-- One-row request table used in witnesses. -/
def sampleDB : RequestDB := fun k => if k = "req1" then some sampleRequest else none

/-- Witness for C10 at a concrete table. -/
theorem updateRequestError_frame_witness :
    updateRequestError sampleDB "req1" "boom" 9 "other" = sampleDB "other"
    ∧ (updateRequestError sampleDB "req1" "boom" 9 "req1"
        = some { sampleRequest with status := "error", errorMessage := "boom", updatedAt := 9 }
      → True) := by
  refine ⟨(updateRequestError_frame sampleDB "req1" "boom" 9).1 "other" (by decide), fun _ => ?_⟩
  have h := (updateRequestError_frame sampleDB "req1" "boom" 9).2 sampleRequest
    { sampleRequest with status := "error", errorMessage := "boom", updatedAt := 9 }
    (by unfold sampleDB; rw [if_pos rfl]) (by unfold updateRequestError sampleDB; rfl)
  trivial

/-! ## Transform output extraction (C9), from `processImageWithReplicate` in `main.go` -/

/-- Shape of the decoded JSON `output` field of a prediction
(`interface{}` in the Go source): a string, an array of values, or some
other JSON value (number, null, object — collapsed, since the Go code
only distinguishes strings and arrays). -/
inductive OutputVal where
  | ostr (s : String)
  | oarr (elems : List OutputVal)
  | onum
  | onull

/-- Embedding of the output-URL extraction in the `succeeded` branch of
`processImageWithReplicate`.  `none` models the Go runtime panic of the
unchecked type assertion `v[0].(string)` when the first array element is
not a string; every other shape leaves the initial empty string or
overwrites it as the source does. -/
def extractOutputURL : OutputVal → Option String
  | .ostr s => some s
  | .oarr [] => some ""
  | .oarr (v :: _) =>
    match v with
    | .ostr s => some s
    | _ => none
  | .onum => some ""
  | .onull => some ""

/-- C9 counterexample: on the output shape "array whose first element is
a number" the extraction is not total — the unchecked type assertion
`v[0].(string)` panics (modelled as `none`), contradicting the claim
that every non-string shape yields the empty string and never a crash. -/
theorem extractOutputURL_panics_on_nonstring_head :
    extractOutputURL (.oarr [.onum]) = none := rfl

/-- C9 (amended): extraction is total and as described on every shape
except a non-empty array whose first element is not a string: a string
output is used directly, an array with a string head yields that head,
an empty array and any non-string non-array shape yield the empty
string (the "No output URL" error path); but a non-empty array with a
non-string head makes the type assertion panic. -/
theorem extractOutputURL_spec (o : OutputVal) :
    (∀ s, o = .ostr s → extractOutputURL o = some s)
    ∧ (o = .oarr [] → extractOutputURL o = some "")
    ∧ (∀ s t, o = .oarr (.ostr s :: t) → extractOutputURL o = some s)
    ∧ (o = .onum ∨ o = .onull → extractOutputURL o = some "")
    ∧ (∀ v t, o = .oarr (v :: t) → (∀ s, v ≠ .ostr s) → extractOutputURL o = none) := by
  refine ⟨?_, ?_, ?_, ?_, ?_⟩
  · intro s h
    subst h; rfl
  · intro h
    subst h; rfl
  · intro s t h
    subst h; rfl
  · intro h
    rcases h with h | h <;> (subst h; rfl)
  · intro v t h hv
    subst h
    cases v with
    | ostr s => exact absurd rfl (hv s)
    | oarr es => rfl
    | onum => rfl
    | onull => rfl

/-- Witness for C9's amended characterization at concrete outputs. -/
theorem extractOutputURL_spec_witness :
    extractOutputURL (.ostr "https://cdn/out.jpg") = some "https://cdn/out.jpg"
    ∧ extractOutputURL (.oarr [.onull, .ostr "x"]) = none := by
  constructor
  · exact (extractOutputURL_spec (.ostr "https://cdn/out.jpg")).1 _ rfl
  · exact (extractOutputURL_spec (.oarr [.onull, .ostr "x"])).2.2.2.2 .onull [.ostr "x"] rfl
      (fun s h => OutputVal.noConfusion h)

/-! ## Confirm idempotence (C2), from `confirmHandler` in `handlers.go` -/

/-- Embedding of `confirmHandler` from `handlers.go` on an existing
request: given the form action and the request's current status, it
returns the status written (unchanged for the no-op redirect) and
whether a transform-processing run was started.  The cancel action
writes `cancelled` unconditionally; any other action is the confirm
path, which is guarded on status `weather_fetched`. -/
def confirmHandler (action status : String) : String × Bool :=
  if action = "cancel" then ("cancelled", false)
  else if status ≠ "weather_fetched" then (status, false)
  else ("confirmed", true)

/-- C2: confirm is idempotent for submissions — invoked with any status
other than `weather_fetched` it starts no run and changes no status, and
two successive confirm invocations starting from `weather_fetched` start
exactly one transform-job submission. -/
theorem confirmHandler_single_submission (a₁ a₂ s : String)
    (h₁ : a₁ ≠ "cancel") (h₂ : a₂ ≠ "cancel") :
    (s ≠ "weather_fetched" → confirmHandler a₁ s = (s, false))
    ∧ ((if (confirmHandler a₁ "weather_fetched").2 then 1 else 0)
        + (if (confirmHandler a₂ (confirmHandler a₁ "weather_fetched").1).2 then 1 else 0)
        = 1) := by
  constructor
  · intro hs
    unfold confirmHandler
    rw [if_neg h₁, if_pos hs]
  · have hfirst : confirmHandler a₁ "weather_fetched" = ("confirmed", true) := by
      unfold confirmHandler
      rw [if_neg h₁, if_neg (by simp)]
    have hsecond : confirmHandler a₂ "confirmed" = ("confirmed", false) := by
      unfold confirmHandler
      rw [if_neg h₂, if_pos (by decide)]
    rw [hfirst]
    simp only [hsecond]
    rfl

/-- Witness for C2 at concrete actions and status. -/
theorem confirmHandler_single_submission_witness :
    confirmHandler "confirm" "processing" = ("processing", false)
    ∧ ((if (confirmHandler "confirm" "weather_fetched").2 then 1 else 0)
        + (if (confirmHandler "confirm"
              (confirmHandler "confirm" "weather_fetched").1).2 then 1 else 0)
        = 1) :=
  ⟨(confirmHandler_single_submission "confirm" "confirm" "processing"
      (by decide) (by decide)).1 (by decide),
   (confirmHandler_single_submission "confirm" "confirm" "processing"
      (by decide) (by decide)).2⟩

/-! ## Polling loop (C1), from `processImageWithReplicate` in `main.go` -/

/-- A decoded prediction as seen by one poll (`ReplicatePrediction` in
the source, restricted to the fields the loop reads). -/
structure Prediction where
  status : String
  output : OutputVal
  error : String

/-- Result of one `getPredictionStatus` call: a transport/HTTP failure,
or a decoded prediction. -/
inductive PollResp where
  | transportErr
  | ok (p : Prediction)

/-- Final state written for the request by the processing run. -/
inductive Outcome where
  | completed
  | cancelled
  | error (msg : String)
  | panic
  deriving DecidableEq, Repr

/-- Whether a poll response short-circuits the loop (one of the three
terminal provider statuses). -/
def isTerminalResp : PollResp → Bool
  | .transportErr => false
  | .ok p => decide (p.status = "succeeded" ∨ p.status = "failed" ∨ p.status = "canceled")

/-- The body of the polling loop of `processImageWithReplicate`, indexed
by the current attempt number `i` and the remaining attempts (fuel):
a transport failure is logged and retried (`continue`), `succeeded`
extracts the output URL (panicking on a non-string array head) and
downloads it, `failed` copies the provider error text (or the generic
message), `canceled` writes `cancelled`, any other status retries, and
exhausted fuel is the timeout error.  `poll` is the provider oracle and
`dl` tells whether downloading a given URL succeeds. -/
def runPoll (poll : Nat → PollResp) (dl : String → Bool) : Nat → Nat → Outcome
  | _, 0 => .error "Image processing timeout"
  | i, fuel + 1 =>
    match poll i with
    | .transportErr => runPoll poll dl (i + 1) fuel
    | .ok p =>
      if p.status = "succeeded" then
        match extractOutputURL p.output with
        | none => .panic
        | some outputURL =>
          if outputURL = "" then .error "No output URL in prediction result"
          else if dl outputURL then .completed
          else .error "Failed to download result"
      else if p.status = "failed" then
        .error (if p.error = "" then "Prediction failed" else p.error)
      else if p.status = "canceled" then .cancelled
      else runPoll poll dl (i + 1) fuel

/-- What the loop does at the first terminal poll response. -/
def terminalOutcome (dl : String → Bool) (p : Prediction) : Outcome :=
  if p.status = "succeeded" then
    match extractOutputURL p.output with
    | none => .panic
    | some outputURL =>
      if outputURL = "" then .error "No output URL in prediction result"
      else if dl outputURL then .completed
      else .error "Failed to download result"
  else if p.status = "failed" then
    .error (if p.error = "" then "Prediction failed" else p.error)
  else if p.status = "canceled" then .cancelled
  else .panic

/-- Embedding of the polling phase of `processImageWithReplicate`:
`maxAttempts := 120`. -/
def processImageWithReplicate (poll : Nat → PollResp) (dl : String → Bool) : Outcome :=
  runPoll poll dl 0 120

lemma runPoll_skip (poll : Nat → PollResp) (dl : String → Bool) (fuel i : Nat)
    (h : isTerminalResp (poll i) = false) :
    runPoll poll dl i (fuel + 1) = runPoll poll dl (i + 1) fuel := by
  cases hp : poll i with
  | transportErr => simp [runPoll, hp]
  | ok p =>
    rw [hp] at h
    simp only [isTerminalResp, decide_eq_false_iff_not] at h
    push_neg at h
    obtain ⟨h1, h2, h3⟩ := h
    simp [runPoll, hp, h1, h2, h3]

lemma runPoll_timeout (poll : Nat → PollResp) (dl : String → Bool) :
    ∀ fuel i, (∀ k, k < fuel → isTerminalResp (poll (i + k)) = false) →
    runPoll poll dl i fuel = .error "Image processing timeout" := by
  intro fuel
  induction fuel with
  | zero => intro i _; rfl
  | succ n ih =>
    intro i h
    rw [runPoll_skip poll dl n i (by simpa using h 0 (Nat.succ_pos n))]
    apply ih
    intro k hk
    have h2 := h (k + 1) (by omega)
    rwa [show i + (k + 1) = i + 1 + k by omega] at h2

lemma runPoll_ok_terminal (poll : Nat → PollResp) (dl : String → Bool) (i fuel : Nat)
    (p : Prediction) (hp : poll i = .ok p) (ht : isTerminalResp (poll i) = true) :
    runPoll poll dl i (fuel + 1) = terminalOutcome dl p := by
  rw [hp] at ht
  simp only [isTerminalResp, decide_eq_true_eq] at ht
  simp only [runPoll, hp]
  unfold terminalOutcome
  by_cases hs : p.status = "succeeded"
  · simp only [if_pos hs]
  · simp only [if_neg hs]
    by_cases hf : p.status = "failed"
    · simp only [if_pos hf]
    · simp only [if_neg hf]
      by_cases hc : p.status = "canceled"
      · simp only [if_pos hc]
      · tauto

lemma runPoll_first_terminal (poll : Nat → PollResp) (dl : String → Bool) :
    ∀ j fuel i (p : Prediction), j < fuel →
    (∀ k, k < j → isTerminalResp (poll (i + k)) = false) →
    poll (i + j) = .ok p → isTerminalResp (poll (i + j)) = true →
    runPoll poll dl i fuel = terminalOutcome dl p := by
  intro j
  induction j with
  | zero =>
    intro fuel i p hfuel _ hp ht
    obtain ⟨m, rfl⟩ : ∃ m, fuel = m + 1 := ⟨fuel - 1, by omega⟩
    rw [Nat.add_zero] at hp ht
    exact runPoll_ok_terminal poll dl i m p hp ht
  | succ n ih =>
    intro fuel i p hfuel hpre hp ht
    obtain ⟨m, rfl⟩ : ∃ m, fuel = m + 1 := ⟨fuel - 1, by omega⟩
    rw [runPoll_skip poll dl m i (by simpa using hpre 0 (Nat.succ_pos n))]
    have hshift : i + (n + 1) = (i + 1) + n := by omega
    refine ih m (i + 1) p (by omega) ?_ (by rwa [hshift] at hp) (by rwa [hshift] at ht)
    intro k hk
    have h2 := hpre (k + 1) (by omega)
    rwa [show i + (k + 1) = i + 1 + k by omega] at h2

/-- C1: over any poll-response sequence, the loop makes at most 120
attempts; transport failures are swallowed and consume one attempt; if
no attempt among the first 120 is terminal the outcome is the timeout
error; otherwise the first terminal response decides: `succeeded` with a
valid output URL and a successful download gives `completed` (also on
the 120th attempt), `failed` gives `error` with the provider's error
text or the generic "Prediction failed", and `canceled` gives
`cancelled`. -/
theorem processImageWithReplicate_poll_spec (poll : Nat → PollResp) (dl : String → Bool) :
    ((∀ i, i < 120 → isTerminalResp (poll i) = false) →
      processImageWithReplicate poll dl = .error "Image processing timeout")
    ∧ (∀ j, j < 120 → (∀ i, i < j → isTerminalResp (poll i) = false) →
        ∀ p, poll j = .ok p →
        ((∀ url, p.status = "succeeded" → extractOutputURL p.output = some url →
            url ≠ "" → dl url = true → processImageWithReplicate poll dl = .completed)
         ∧ (p.status = "failed" → processImageWithReplicate poll dl
              = .error (if p.error = "" then "Prediction failed" else p.error))
         ∧ (p.status = "canceled" → processImageWithReplicate poll dl = .cancelled))) := by
  constructor
  · intro h
    exact runPoll_timeout poll dl 120 0 (fun k hk => by simpa using h k hk)
  · intro j hj hpre p hp
    have hrun : isTerminalResp (poll j) = true → processImageWithReplicate poll dl
        = terminalOutcome dl p := by
      intro ht
      exact runPoll_first_terminal poll dl j 120 0 p hj
        (fun k hk => by simpa using hpre k hk) (by simpa using hp) (by simpa using ht)
    refine ⟨?_, ?_, ?_⟩
    · intro url hs hurl hne hdl
      rw [hrun (by rw [hp]; simp [isTerminalResp, hs])]
      unfold terminalOutcome
      rw [if_pos hs, hurl]
      show (if url = "" then Outcome.error "No output URL in prediction result"
            else if dl url then Outcome.completed
            else Outcome.error "Failed to download result") = Outcome.completed
      rw [if_neg hne, if_pos hdl]
    · intro hf
      have hns : p.status ≠ "succeeded" := by rw [hf]; decide
      rw [hrun (by rw [hp]; simp [isTerminalResp, hf])]
      unfold terminalOutcome
      rw [if_neg hns, if_pos hf]
    · intro hc
      have hns : p.status ≠ "succeeded" := by rw [hc]; decide
      have hnf : p.status ≠ "failed" := by rw [hc]; decide
      rw [hrun (by rw [hp]; simp [isTerminalResp, hc])]
      unfold terminalOutcome
      rw [if_neg hns, if_neg hnf, if_pos hc]

/-- Poll oracle of the specification's poll-loop scenario: `processing`
on attempts 1–119 and `succeeded` with a valid output URL on attempt
120 (index 119). -/
def slowPoll : Nat → PollResp := fun i =>
  if i < 119 then .ok ⟨"processing", .onull, ""⟩
  else .ok ⟨"succeeded", .ostr "https://cdn/out.jpg", ""⟩

/-- Witness for C1: the scenario provider that stays `processing` until
succeeding on the very last attempt yields `completed`. -/
theorem processImageWithReplicate_poll_spec_witness :
    processImageWithReplicate slowPoll (fun _ => true) = .completed := by
  have h := (processImageWithReplicate_poll_spec slowPoll (fun _ => true)).2 119 (by decide)
    (fun i hi => by unfold slowPoll; rw [if_pos hi]; decide)
    ⟨"succeeded", .ostr "https://cdn/out.jpg", ""⟩ rfl
  exact h.1 "https://cdn/out.jpg" rfl rfl (by decide) rfl

/-! ## Status state machine (C3)

The status writes the code can perform, from `handlers.go` and
`main.go`.  A request's lifecycle is: `submitHandler` creates the row
with status `pending` and spawns `processWeatherRequest` (pipeline 1);
the user may POST `confirm` with action `cancel` (an unconditional
`cancelled` write) or with the confirm action (guarded on
`weather_fetched`, then writing `confirmed` and spawning
`processImageWithReplicate`, pipeline 2) at any time; each pipeline
writes its status sequence in program order.  The model interleaves
user actions with single pipeline writes. -/

/-- Status writes of `processWeatherRequest` in program order, given
whether geocoding and the weather fetch succeed: `updateRequestGeocode`
writes `geocoding`, then `weather_fetching`, then `updateRequestWeather`
writes `weather_fetched` or `updateRequestError` writes `error`; a
geocoding failure writes only `error`. -/
def p1Writes (geocodeOk weatherOk : Bool) : List String :=
  if geocodeOk then
    ["geocoding", "weather_fetching", if weatherOk then "weather_fetched" else "error"]
  else ["error"]

/-- The status written by the polling phase for each outcome (a panic
terminates the goroutine without any write). -/
def outcomeWrites : Outcome → List String
  | .completed => ["completed"]
  | .error _ => ["error"]
  | .cancelled => ["cancelled"]
  | .panic => []

/-- Status writes of `processImageWithReplicate` in program order: a
failure before the prediction exists writes only `error`; otherwise
`updateRequestPredictionID` writes `processing` and the polling loop's
outcome follows. -/
def p2Writes (uploadOk : Bool) (o : Outcome) : List String :=
  if uploadOk then "processing" :: outcomeWrites o else ["error"]

/-- The possible write sequences of pipeline 1. -/
def ValidW1 (w : List String) : Prop :=
  w = ["error"] ∨ w = ["geocoding", "weather_fetching", "weather_fetched"]
    ∨ w = ["geocoding", "weather_fetching", "error"]

/-- The possible write sequences of pipeline 2. -/
def ValidW2 (w : List String) : Prop :=
  w = ["error"] ∨ w = ["processing"] ∨ w = ["processing", "completed"]
    ∨ w = ["processing", "error"] ∨ w = ["processing", "cancelled"]

lemma p1Writes_valid (g wo : Bool) : ValidW1 (p1Writes g wo) := by
  cases g <;> cases wo <;> simp [p1Writes, ValidW1]

lemma p2Writes_valid (u : Bool) (o : Outcome) : ValidW2 (p2Writes u o) := by
  cases u <;> cases o <;> simp [p2Writes, outcomeWrites, ValidW2]

/-- State of one request: its persisted status, the next write index of
pipeline 1, and the next write index of pipeline 2 (`none` until a
confirm spawns it). -/
structure Sys where
  status : String
  p1 : Nat
  p2 : Option Nat
  deriving DecidableEq, Repr

/-- The operations that can touch the status: the user cancel action,
the user confirm action, and one pending write of either pipeline. -/
inductive Op where
  | cancel
  | confirm
  | step1
  | step2
  deriving DecidableEq, Repr

/-- State right after `submitHandler`: status `pending`, pipeline 1
spawned, pipeline 2 not spawned. -/
def initSys : Sys := ⟨"pending", 0, none⟩

/-- One operation against the current state, with the guards the code
actually has: cancel writes `cancelled` unconditionally; confirm is
guarded on `weather_fetched` and spawns pipeline 2; a pipeline step
performs its next pending write, if any. -/
def stepOp (w1 w2 : List String) (s : Sys) : Op → Sys
  | .cancel => { s with status := "cancelled" }
  | .confirm =>
    if s.status = "weather_fetched" then { s with status := "confirmed", p2 := some 0 }
    else s
  | .step1 =>
    match w1.get? s.p1 with
    | some st => { s with status := st, p1 := s.p1 + 1 }
    | none => s
  | .step2 =>
    match s.p2 with
    | none => s
    | some k =>
      match w2.get? k with
      | some st => { s with status := st, p2 := some (k + 1) }
      | none => s

/-- Run a sequence of operations from the initial state. -/
def runOps (w1 w2 : List String) (ops : List Op) : Sys :=
  ops.foldl (stepOp w1 w2) initSys

/-- Rank of a status in the forward chain of the claim. -/
def chainRank (s : String) : Option Nat :=
  if s = "pending" then some 0
  else if s = "geocoding" then some 1
  else if s = "weather_fetching" then some 2
  else if s = "weather_fetched" then some 3
  else if s = "confirmed" then some 4
  else if s = "processing" then some 5
  else if s = "completed" then some 6
  else none

/-- Terminal statuses per the claim. -/
def isTerminalStatus (s : String) : Bool :=
  decide (s = "completed") || decide (s = "error") || decide (s = "cancelled")

/-- Strictly forward move along the chain. -/
def forwardStep (s t : String) : Bool :=
  match chainRank s, chainRank t with
  | some i, some j => decide (i < j)
  | _, _ => false

/-- The transition relation asserted by the claim: never from a terminal
status, and either strictly forward along the chain, or sideways to
`error`, or to `cancelled` from `weather_fetched` only. -/
def ClaimAllowed (s t : String) : Prop :=
  isTerminalStatus s = false
  ∧ (forwardStep s t = true ∨ t = "error" ∨ (t = "cancelled" ∧ s = "weather_fetched"))

instance (s t : String) : Decidable (ClaimAllowed s t) := by
  unfold ClaimAllowed
  infer_instance

/-- The status the last writer left, as a function of the two pipeline
counters. -/
def expectedStatus (w1 w2 : List String) (p1 : Nat) (p2 : Option Nat) : String :=
  match p2 with
  | some 0 => "confirmed"
  | some (k + 1) => (w2.get? k).getD "confirmed"
  | none => if p1 = 0 then "pending" else (w1.get? (p1 - 1)).getD "pending"

/-- Reachability invariant: the status is `cancelled` (a cancel was the
last writer) or the last pipeline/confirm write; counters stay in
bounds; and pipeline 2 only exists once pipeline 1 has finished. -/
def Inv (w1 w2 : List String) (s : Sys) : Prop :=
  (s.status = "cancelled" ∨ s.status = expectedStatus w1 w2 s.p1 s.p2)
  ∧ s.p1 ≤ w1.length
  ∧ (∀ k, s.p2 = some k → k ≤ w2.length ∧ s.p1 = w1.length)

lemma inv_init (w1 w2 : List String) : Inv w1 w2 initSys :=
  ⟨Or.inr rfl, Nat.zero_le _, fun k hk => by cases hk⟩

lemma w1_entry_ne_wf (w1 : List String) (hv1 : ValidW1 w1) (n : Nat) (hn : n ≤ w1.length)
    (h : (if n = 0 then "pending" else (w1.get? (n - 1)).getD "pending") = "weather_fetched") :
    n = w1.length := by
  rcases hv1 with h1 | h1 | h1 <;> subst h1
  · have hb : n ≤ 1 := by simpa using hn
    rcases (by omega : n = 0 ∨ n = 1) with rfl | rfl
    · simp at h
    · rfl
  · have hb : n ≤ 3 := by simpa using hn
    rcases (by omega : n = 0 ∨ n = 1 ∨ n = 2 ∨ n = 3) with rfl | rfl | rfl | rfl
    · simp at h
    · simp [List.get?] at h
    · simp [List.get?] at h
    · rfl
  · have hb : n ≤ 3 := by simpa using hn
    rcases (by omega : n = 0 ∨ n = 1 ∨ n = 2 ∨ n = 3) with rfl | rfl | rfl | rfl
    · simp at h
    · simp [List.get?] at h
    · simp [List.get?] at h
    · rfl

lemma w2_entry_ne_wf (w2 : List String) (hv2 : ValidW2 w2) (k : Nat)
    (hk : k ≤ w2.length) :
    expectedStatus [] w2 0 (some k) ≠ "weather_fetched" := by
  rcases hv2 with h1 | h1 | h1 | h1 | h1 <;> subst h1
  · have hb : k ≤ 1 := by simpa using hk
    rcases (by omega : k = 0 ∨ k = 1) with rfl | rfl <;> decide
  · have hb : k ≤ 1 := by simpa using hk
    rcases (by omega : k = 0 ∨ k = 1) with rfl | rfl <;> decide
  · have hb : k ≤ 2 := by simpa using hk
    rcases (by omega : k = 0 ∨ k = 1 ∨ k = 2) with rfl | rfl | rfl <;> decide
  · have hb : k ≤ 2 := by simpa using hk
    rcases (by omega : k = 0 ∨ k = 1 ∨ k = 2) with rfl | rfl | rfl <;> decide
  · have hb : k ≤ 2 := by simpa using hk
    rcases (by omega : k = 0 ∨ k = 1 ∨ k = 2) with rfl | rfl | rfl <;> decide

lemma w1_step_allowed (w1 : List String) (hv1 : ValidW1 w1) (n : Nat) (st : String)
    (h : w1.get? n = some st) :
    ClaimAllowed (if n = 0 then "pending" else (w1.get? (n - 1)).getD "pending") st := by
  have hn : n < w1.length := List.get?_eq_some.mp h |>.1
  rcases hv1 with h1 | h1 | h1 <;> subst h1
  · have hb : n < 1 := by simpa using hn
    obtain rfl : n = 0 := by omega
    simp [List.get?] at h
    subst h
    decide
  · have hb : n < 3 := by simpa using hn
    rcases (by omega : n = 0 ∨ n = 1 ∨ n = 2) with rfl | rfl | rfl <;>
      (simp [List.get?] at h; subst h; decide)
  · have hb : n < 3 := by simpa using hn
    rcases (by omega : n = 0 ∨ n = 1 ∨ n = 2) with rfl | rfl | rfl <;>
      (simp [List.get?] at h; subst h; decide)

lemma w2_step_allowed (w2 : List String) (hv2 : ValidW2 w2) (k : Nat) (st : String)
    (h : w2.get? k = some st) :
    ClaimAllowed (expectedStatus [] w2 0 (some k)) st
    ∨ (expectedStatus [] w2 0 (some k) = "processing" ∧ st = "cancelled") := by
  have hk : k < w2.length := List.get?_eq_some.mp h |>.1
  rcases hv2 with h1 | h1 | h1 | h1 | h1 <;> subst h1
  · have hb : k < 1 := by simpa using hk
    obtain rfl : k = 0 := by omega
    simp [List.get?] at h
    subst h
    decide
  · have hb : k < 1 := by simpa using hk
    obtain rfl : k = 0 := by omega
    simp [List.get?] at h
    subst h
    decide
  · have hb : k < 2 := by simpa using hk
    rcases (by omega : k = 0 ∨ k = 1) with rfl | rfl <;>
      (simp [List.get?] at h; subst h; decide)
  · have hb : k < 2 := by simpa using hk
    rcases (by omega : k = 0 ∨ k = 1) with rfl | rfl <;>
      (simp [List.get?] at h; subst h; decide)
  · have hb : k < 2 := by simpa using hk
    rcases (by omega : k = 0 ∨ k = 1) with rfl | rfl <;>
      (simp [List.get?] at h; subst h; decide)

lemma step_sound (w1 w2 : List String) (hv1 : ValidW1 w1) (hv2 : ValidW2 w2)
    (s : Sys) (hI : Inv w1 w2 s) (op : Op) :
    Inv w1 w2 (stepOp w1 w2 s op)
    ∧ ((stepOp w1 w2 s op).status ≠ s.status →
        ClaimAllowed s.status (stepOp w1 w2 s op).status
        ∨ (op = .cancel ∧ (stepOp w1 w2 s op).status = "cancelled")
        ∨ s.status = "cancelled"
        ∨ (s.status = "processing" ∧ (stepOp w1 w2 s op).status = "cancelled")) := by
  obtain ⟨hstat, hp1, hp2⟩ := hI
  cases op with
  | cancel =>
    exact ⟨⟨Or.inl rfl, hp1, fun k hk => hp2 k hk⟩, fun _ => Or.inr (Or.inl ⟨rfl, rfl⟩)⟩
  | confirm =>
    by_cases hwf : s.status = "weather_fetched"
    · have hexp : s.status = expectedStatus w1 w2 s.p1 s.p2 := by
        rcases hstat with h | h
        · rw [hwf] at h
          exact absurd h (by decide)
        · exact h
      have hnone : s.p2 = none := by
        cases hpp : s.p2 with
        | none => rfl
        | some k =>
          exfalso
          rw [hpp] at hexp
          have hkb := (hp2 k hpp).1
          have heq : expectedStatus w1 w2 s.p1 (some k) = expectedStatus [] w2 0 (some k) := by
            cases k <;> rfl
          exact w2_entry_ne_wf w2 hv2 k hkb (by rw [← heq, ← hexp, hwf])
      rw [hnone] at hexp
      have hdone : s.p1 = w1.length :=
        w1_entry_ne_wf w1 hv1 s.p1 hp1 (by rw [show (if s.p1 = 0 then "pending"
          else (w1.get? (s.p1 - 1)).getD "pending") = expectedStatus w1 w2 s.p1 none from rfl,
          ← hexp, hwf])
      constructor
      · simp only [stepOp, if_pos hwf]
        exact ⟨Or.inr rfl, hp1, fun k hk => ⟨by cases hk; exact Nat.zero_le _, hdone⟩⟩
      · intro _
        simp only [stepOp, if_pos hwf]
        rw [hwf]
        exact Or.inl (by decide)
    · simp only [stepOp, if_neg hwf]
      exact ⟨⟨hstat, hp1, hp2⟩, fun hne => absurd rfl hne⟩
  | step1 =>
    cases hget : w1.get? s.p1 with
    | none =>
      simp only [stepOp, hget]
      exact ⟨⟨hstat, hp1, hp2⟩, fun hne => absurd rfl hne⟩
    | some st =>
      have hlt : s.p1 < w1.length := List.get?_eq_some.mp hget |>.1
      have hnone : s.p2 = none := by
        cases hpp : s.p2 with
        | none => rfl
        | some k => exact absurd ((hp2 k hpp).2 ▸ hlt) (lt_irrefl _)
      simp only [stepOp, hget]
      constructor
      · refine ⟨Or.inr ?_, hlt, fun k hk => by rw [hnone] at hk; cases hk⟩
        show st = expectedStatus w1 w2 (s.p1 + 1) s.p2
        rw [hnone]
        show st = if s.p1 + 1 = 0 then "pending" else (w1.get? (s.p1 + 1 - 1)).getD "pending"
        rw [if_neg (Nat.succ_ne_zero _), Nat.add_sub_cancel, hget]
        rfl
      · intro _
        rcases hstat with h | h
        · exact Or.inr (Or.inr (Or.inl h))
        · left
          rw [h, hnone] at *
          have := w1_step_allowed w1 hv1 s.p1 st hget
          rw [show expectedStatus w1 w2 s.p1 none = (if s.p1 = 0 then "pending"
            else (w1.get? (s.p1 - 1)).getD "pending") from rfl]
          exact this
  | step2 =>
    cases hpp : s.p2 with
    | none =>
      simp only [stepOp, hpp]
      exact ⟨⟨hstat, hp1, hp2⟩, fun hne => absurd rfl hne⟩
    | some k =>
      cases hget : w2.get? k with
      | none =>
        simp only [stepOp, hpp, hget]
        exact ⟨⟨hstat, hp1, hp2⟩, fun hne => absurd rfl hne⟩
      | some st =>
        have hklt : k < w2.length := List.get?_eq_some.mp hget |>.1
        simp only [stepOp, hpp, hget]
        constructor
        · refine ⟨Or.inr ?_, hp1, fun k2 hk2 => ?_⟩
          · show st = expectedStatus w1 w2 s.p1 (some (k + 1))
            show st = (w2.get? k).getD "confirmed"
            rw [hget]
            rfl
          · cases hk2
            exact ⟨by omega, (hp2 k hpp).2⟩
        · intro _
          rcases hstat with h | h
          · exact Or.inr (Or.inr (Or.inl h))
          · have hnow : s.status = expectedStatus [] w2 0 (some k) := by
              rw [h, hpp]
              cases k <;> rfl
            rcases w2_step_allowed w2 hv2 k st hget with ha | ⟨hb1, hb2⟩
            · exact Or.inl (hnow ▸ ha)
            · exact Or.inr (Or.inr (Or.inr ⟨by rw [hnow, hb1], hb2⟩))

lemma inv_runOps_aux (w1 w2 : List String) (hv1 : ValidW1 w1) (hv2 : ValidW2 w2) :
    ∀ (ops : List Op) (s : Sys), Inv w1 w2 s → Inv w1 w2 (ops.foldl (stepOp w1 w2) s) := by
  intro ops
  induction ops with
  | nil => exact fun s h => h
  | cons op rest ih =>
    intro s h
    exact ih _ (step_sound w1 w2 hv1 hv2 s h op).1

lemma inv_runOps (w1 w2 : List String) (hv1 : ValidW1 w1) (hv2 : ValidW2 w2)
    (ops : List Op) : Inv w1 w2 (runOps w1 w2 ops) :=
  inv_runOps_aux w1 w2 hv1 hv2 ops initSys (inv_init w1 w2)

/-- C3 counterexample: the concrete run that completes successfully and
is then cancelled — the user cancel action moves status `completed` to
`cancelled`, a transition out of a terminal status and a `cancelled`
entry from a status other than `weather_fetched`, both of which the
claim forbids. -/
theorem cancel_leaves_terminal_status :
    (runOps (p1Writes true true) (p2Writes true .completed)
        [.step1, .step1, .step1, .confirm, .step2, .step2]).status = "completed"
    ∧ (stepOp (p1Writes true true) (p2Writes true .completed)
        (runOps (p1Writes true true) (p2Writes true .completed)
          [.step1, .step1, .step1, .confirm, .step2, .step2]) .cancel).status = "cancelled"
    ∧ ¬ ClaimAllowed "completed" "cancelled" := by
  refine ⟨by decide, by decide, ?_⟩
  intro ⟨h, _⟩
  exact absurd h (by decide)

/-- C3 (amended): over every environment and every operation sequence,
each status change is a claim-allowed transition (strictly forward,
sideways to `error` from a non-terminal status, or `weather_fetched` to
`cancelled`) except for the deviations the code actually has: the user
cancel action writes `cancelled` from any status including terminal
ones; a still-running pipeline overwrites a `cancelled` status; and the
provider-reported cancellation moves `processing` to `cancelled`. -/
theorem statusTransitions_spec (w1 w2 : List String) (hv1 : ValidW1 w1) (hv2 : ValidW2 w2)
    (ops : List Op) (op : Op) :
    (stepOp w1 w2 (runOps w1 w2 ops) op).status ≠ (runOps w1 w2 ops).status →
    ClaimAllowed (runOps w1 w2 ops).status (stepOp w1 w2 (runOps w1 w2 ops) op).status
    ∨ (op = .cancel ∧ (stepOp w1 w2 (runOps w1 w2 ops) op).status = "cancelled")
    ∨ (runOps w1 w2 ops).status = "cancelled"
    ∨ ((runOps w1 w2 ops).status = "processing"
        ∧ (stepOp w1 w2 (runOps w1 w2 ops) op).status = "cancelled") :=
  (step_sound w1 w2 hv1 hv2 (runOps w1 w2 ops) (inv_runOps w1 w2 hv1 hv2 ops) op).2

/-- Witness for C3's amended transition property at a concrete run: the
first pipeline write from the initial state. -/
theorem statusTransitions_spec_witness :
    ClaimAllowed (runOps (p1Writes true true) (p2Writes true .completed) []).status
        (stepOp (p1Writes true true) (p2Writes true .completed)
          (runOps (p1Writes true true) (p2Writes true .completed) []) .step1).status
    ∨ (Op.step1 = Op.cancel
        ∧ (stepOp (p1Writes true true) (p2Writes true .completed)
            (runOps (p1Writes true true) (p2Writes true .completed) []) .step1).status
          = "cancelled")
    ∨ (runOps (p1Writes true true) (p2Writes true .completed) []).status = "cancelled"
    ∨ ((runOps (p1Writes true true) (p2Writes true .completed) []).status = "processing"
        ∧ (stepOp (p1Writes true true) (p2Writes true .completed)
            (runOps (p1Writes true true) (p2Writes true .completed) []) .step1).status
          = "cancelled") :=
  statusTransitions_spec (p1Writes true true) (p2Writes true .completed)
    (p1Writes_valid true true) (p2Writes_valid true .completed) [] .step1 (by decide)

/-! ## Weather date-range gate (C4), from `getHistoricalWeather` in `main.go`

Go's `time` values are modelled as a proleptic-Gregorian civil date plus
seconds-of-day; `time.Time` subtraction and comparison become Int
arithmetic on seconds.  `now.AddDate(-1, 0, 0)` keeps month, day and
clock and decrements the year, with Go's day normalization (Feb 29 of a
non-leap year rolling over to Mar 1) arising automatically because the
day count is linear in the day field. -/

/-- Gregorian leap-year rule (as in Go's `time` package). -/
def isLeap (y : Nat) : Bool :=
  decide (y % 4 = 0 ∧ (y % 100 ≠ 0 ∨ y % 400 = 0))

/-- Number of leap years in `[1, n]`. -/
def leapCount (n : Nat) : Int :=
  ((n / 4 : Nat) : Int) - ((n / 100 : Nat) : Int) + ((n / 400 : Nat) : Int)

/-- Days from the civil epoch (Jan 1 of year 1) to Jan 1 of year `y`. -/
def daysBeforeYear (y : Nat) : Int :=
  365 * (((y - 1 : Nat)) : Int) + leapCount (y - 1)

/-- Days from Jan 1 to the first day of month `m` (1-based). -/
def daysBeforeMonth (leap : Bool) (m : Nat) : Int :=
  let base : Int :=
    match m with
    | 1 => 0 | 2 => 31 | 3 => 59 | 4 => 90 | 5 => 120 | 6 => 151
    | 7 => 181 | 8 => 212 | 9 => 243 | 10 => 273 | 11 => 304 | 12 => 334
    | _ => 0
  if 3 ≤ m ∧ leap = true then base + 1 else base

/-- Civil day number of a date (linear in the day field, so out-of-range
days normalize exactly as Go's `time.Date` does). -/
def civilDays (y m d : Nat) : Int :=
  daysBeforeYear y + daysBeforeMonth (isLeap y) m + ((d : Int) - 1)

/-- A calendar date as parsed from the request form (midnight UTC). -/
structure Date where
  year : Nat
  month : Nat
  day : Nat

/-- Seconds from the epoch to midnight of a date. -/
def dateSec (dt : Date) : Int := 86400 * civilDays dt.year dt.month dt.day

/-- What the date-range gate of `getHistoricalWeather` decides before
any remote call: the two out-of-range failures, or which provider query
(forecast with the computed day offset, or the history API) would be
issued. -/
inductive FetchDecision where
  | outOfRangePast
  | outOfRangeFuture
  | forecast (daysAhead : Int)
  | history
  deriving DecidableEq, Repr

/-- Embedding of the date checks of `getHistoricalWeather` in `main.go`:
`targetDate.Before(now.AddDate(-1,0,0))` fails past-out-of-range;
otherwise a target after `now` computes
`daysAhead := int(targetDate.Sub(now).Hours() / 24)` (truncating
division) and fails future-out-of-range when `daysAhead > 16`; otherwise
the corresponding remote fetch would run.  `now` is the current date
plus `sod` seconds into the day; the parsed target date is midnight. -/
def getHistoricalWeather (target : Date) (now : Date) (sod : Int) : FetchDecision :=
  if dateSec target < 86400 * civilDays (now.year - 1) now.month now.day + sod then
    .outOfRangePast
  else if dateSec now + sod < dateSec target then
    if 16 < (dateSec target - (dateSec now + sod)).tdiv 86400 then .outOfRangeFuture
    else .forecast ((dateSec target - (dateSec now + sod)).tdiv 86400)
  else .history

lemma leapCount_succ (n : Nat) :
    leapCount (n + 1) = leapCount n + (if isLeap (n + 1) = true then 1 else 0) := by
  unfold leapCount isLeap
  simp only [decide_eq_true_eq]
  split_ifs <;> omega

lemma civilDays_year_diff (y : Nat) (hy : 2 ≤ y) (m d : Nat) :
    365 ≤ civilDays y m d - civilDays (y - 1) m d
    ∧ civilDays y m d - civilDays (y - 1) m d ≤ 366 := by
  obtain ⟨n, rfl⟩ : ∃ n, y = n + 2 := ⟨y - 2, by omega⟩
  have hlc := leapCount_succ n
  unfold civilDays daysBeforeYear daysBeforeMonth
  simp only [show n + 2 - 1 = n + 1 by omega, Nat.add_sub_cancel]
  by_cases hm : 3 ≤ m <;> by_cases l1 : isLeap (n + 2) = true <;>
    by_cases l2 : isLeap (n + 1) = true <;>
    simp only [hm, l1, l2, if_pos, if_neg, true_and, false_and, and_true, and_false,
      if_true, if_false, Bool.not_eq_true] at hlc ⊢ <;>
    push_cast <;> omega

/-- C4 counterexample: the range checks are not the claim's "more than
365 days past / more than 16 days future".  A target 16 days 18 hours
ahead (more than 16 days in the future) still routes to the forecast
fetch, because the day offset truncates to 16; and with now = noon of
2024-03-01, the target 2023-03-02 lies 365 days 12 hours in the past
(more than 365 days) yet routes to the history fetch, because
`AddDate(-1,0,0)` spans the 366-day leap year back to 2023-03-01. -/
theorem getHistoricalWeather_boundary_counterexample :
    (getHistoricalWeather ⟨2026, 10, 28⟩ ⟨2026, 10, 11⟩ 21600 = .forecast 16
      ∧ dateSec ⟨2026, 10, 28⟩ - (dateSec ⟨2026, 10, 11⟩ + 21600) > 16 * 86400)
    ∧ (getHistoricalWeather ⟨2023, 3, 2⟩ ⟨2024, 3, 1⟩ 43200 = .history
      ∧ (dateSec ⟨2024, 3, 1⟩ + 43200) - dateSec ⟨2023, 3, 2⟩ > 365 * 86400) := by
  refine ⟨⟨?_, ?_⟩, ?_, ?_⟩ <;> decide

/-- C4 (amended): the out-of-range decisions are taken before any remote
fetch (the `forecast`/`history` decisions are the only ones that reach a
provider), every target more than 366 days in the past fails
past-out-of-range (366 covers the longest span `AddDate(-1,0,0)` can
reach back), and every target at least 17 whole days in the future fails
future-out-of-range. -/
theorem getHistoricalWeather_range_spec (target now : Date) (sod : Int)
    (hy : 2 ≤ now.year) (hs0 : 0 ≤ sod) (hs1 : sod < 86400) :
    (dateSec now + sod - dateSec target > 366 * 86400 →
      getHistoricalWeather target now sod = .outOfRangePast)
    ∧ (dateSec target - (dateSec now + sod) ≥ 17 * 86400 →
      getHistoricalWeather target now sod = .outOfRangeFuture) := by
  obtain ⟨hlo, hhi⟩ := civilDays_year_diff now.year hy now.month now.day
  constructor
  · intro h
    unfold getHistoricalWeather
    rw [if_pos (by unfold dateSec at h ⊢; omega)]
  · intro h
    unfold getHistoricalWeather
    rw [if_neg (by unfold dateSec at h ⊢; omega), if_pos (by omega)]
    rw [if_pos ?_]
    have hpos : 0 ≤ dateSec target - (dateSec now + sod) := by omega
    rw [Int.tdiv_eq_ediv hpos (by norm_num)]
    have h17 : 17 ≤ (dateSec target - (dateSec now + sod)) / 86400 := by
      rw [Int.le_ediv_iff_mul_le (by norm_num : (0:Int) < 86400)]
      omega
    omega

/-- Witness for C4's amended range property at concrete dates. -/
theorem getHistoricalWeather_range_spec_witness :
    getHistoricalWeather ⟨2020, 1, 1⟩ ⟨2026, 10, 11⟩ 0 = .outOfRangePast
    ∧ getHistoricalWeather ⟨2026, 10, 28⟩ ⟨2026, 10, 11⟩ 0 = .outOfRangeFuture :=
  ⟨(getHistoricalWeather_range_spec ⟨2020, 1, 1⟩ ⟨2026, 10, 11⟩ 0
      (by decide) (by decide) (by decide)).1 (by decide),
   (getHistoricalWeather_range_spec ⟨2026, 10, 28⟩ ⟨2026, 10, 11⟩ 0
      (by decide) (by decide) (by decide)).2 (by decide)⟩

end Skyweave
